import Mathlib

/-!
Verification of the x402 payment-middleware negotiation engine
(`src/x402_middleware.py`), the reference merchant's deterministic pricing
(`src/merchant_server.py`), and the metadata codec, against the design
specification.  Python dicts are modelled as ordered association lists over a
JSON-like `Value` type; Python object mutation is modelled by explicit state
passing; a thrown exception from a collaborator is modelled with `Except`.
-/

namespace X402

/-- JSON-like values stored in task metadata (the shapes produced by
`model_dump`, `Message.to_dict()` and the client's submission metadata). -/
inductive Value where
  | null : Value
  | bool : Bool → Value
  | nat : Nat → Value
  | str : String → Value
  | list : List Value → Value
  | dict : List (String × Value) → Value
deriving Repr

/-- Python truthiness for the modelled values (`if not x` checks). -/
def truthy : Value → Bool
  | .null => false
  | .bool b => b
  | .nat n => n != 0
  | .str s => s != ""
  | .list [] => false
  | .list (_ :: _) => true
  | .dict [] => false
  | .dict (_ :: _) => true

/-- `d.get(k)` on a Python dict: first binding of the key, if any. -/
def lookup : List (String × Value) → String → Option Value
  | [], _ => none
  | (k', v) :: t, k => if k' = k then some v else lookup t k

/-- `d.get(k, default)` on a Python dict. -/
def lookupD (d : List (String × Value)) (k : String) (default : Value) : Value :=
  (lookup d k).getD default

/-- `d[k] = v` on a Python dict: replace in place if present (keeping
insertion order), otherwise append at the end. -/
def setKey : List (String × Value) → String → Value → List (String × Value)
  | [], k, v => [(k, v)]
  | (k', v') :: t, k, v => if k' = k then (k, v) :: t else (k', v') :: setKey t k v

/-- `d.pop(k, None)` on a Python dict: remove the binding of the key. -/
def popKey : List (String × Value) → String → List (String × Value)
  | [], _ => []
  | (k', v') :: t, k => if k' = k then t else (k', v') :: popKey t k

/-! ### External protocol types (`x402_a2a.types`, `python_a2a`)

These libraries are collaborators outside the repository; the structures
below model exactly the fields the middleware reads and writes, following
the specification's data model (§3) and the code's usage. -/

/-- `PaymentRequirements`: one quoted offer.  Only the fields the middleware
inspects are modelled; `extra` carries the open extension map. -/
structure PaymentRequirements where
  scheme : String
  network : String
  maxAmountRequired : String
  maxTimeoutSeconds : Option Int := none
  extra : Option (List (String × Value)) := none
deriving Repr

/-- `PaymentPayload`: a caller's signed authorization. -/
structure PaymentPayload where
  x402Version : Nat
  scheme : String
  network : String
  payload : Value
deriving Repr

/-- `VerifyResponse` from the facilitator. -/
structure VerifyResponse where
  isValid : Bool
  payer : Option String := none
  invalidReason : Option String := none
deriving Repr

/-- `SettleResponse` from the facilitator (also used for synthetic
failure results built by the middleware). -/
structure SettleResponse where
  success : Bool
  network : Option String := none
  transaction : Option String := none
  errorReason : Option String := none
deriving Repr

/-- `SettleResponse.model_dump(by_alias=True)`. -/
def settleDump (r : SettleResponse) : Value :=
  .dict [("success", .bool r.success),
         ("network", (r.network.map Value.str).getD .null),
         ("transaction", (r.transaction.map Value.str).getD .null),
         ("errorReason", (r.errorReason.map Value.str).getD .null)]

/-- `PaymentPayload.model_dump(by_alias=True)`, the shape the client puts
under `x402.payment.payload`. -/
def payloadDump (p : PaymentPayload) : Value :=
  .dict [("x402Version", .nat p.x402Version),
         ("scheme", .str p.scheme),
         ("network", .str p.network),
         ("payload", p.payload)]

/-- `python_a2a.TaskState` members used by the middleware. -/
inductive TaskState where
  | pending
  | inputRequired
  | completed
  | failed
deriving Repr, DecidableEq

/-- `python_a2a.TaskStatus`: state plus optional message.  A freshly built
`TaskStatus(state=...)` has no message (`message = none`). -/
structure TaskStatus where
  state : TaskState
  message : Option Value := none
deriving Repr

/-- `python_a2a.Task`: identifier, status, optional artifacts. -/
structure Task where
  id : String
  status : TaskStatus
  artifacts : Option (List Value) := none
deriving Repr

/-- `PaymentStatus` (kebab-case wire values per the spec). -/
inductive PaymentStatus where
  | paymentRequired
  | paymentSubmitted
  | paymentVerified
  | paymentCompleted
  | paymentFailed
deriving Repr, DecidableEq

/-- Wire value of each `PaymentStatus` member. -/
def PaymentStatus.value : PaymentStatus → String
  | .paymentRequired => "payment-required"
  | .paymentSubmitted => "payment-submitted"
  | .paymentVerified => "payment-verified"
  | .paymentCompleted => "payment-completed"
  | .paymentFailed => "payment-failed"

/-- `PaymentStatus(s)`: parse a wire value, `none` models the caught
`ValueError` on an unknown string. -/
def parsePaymentStatus : String → Option PaymentStatus
  | "payment-required" => some .paymentRequired
  | "payment-submitted" => some .paymentSubmitted
  | "payment-verified" => some .paymentVerified
  | "payment-completed" => some .paymentCompleted
  | "payment-failed" => some .paymentFailed
  | _ => none

/-- `x402ErrorCode` members, following the specification's error taxonomy
(§7) and the members the middleware passes (`INVALID_SIGNATURE`,
`EXPIRED_PAYMENT`, `SETTLEMENT_FAILED`). -/
inductive x402ErrorCode where
  | MISSING_PAYLOAD
  | MISSING_REQUIREMENTS
  | NO_MATCHING_REQUIREMENT
  | EXPIRED_PAYMENT
  | INVALID_SIGNATURE
  | SETTLEMENT_FAILED
deriving Repr, DecidableEq

/-- Wire string of each error-code member (`error_code.value`). -/
def x402ErrorCode.value : x402ErrorCode → String
  | .MISSING_PAYLOAD => "MISSING_PAYLOAD"
  | .MISSING_REQUIREMENTS => "MISSING_REQUIREMENTS"
  | .NO_MATCHING_REQUIREMENT => "NO_MATCHING_REQUIREMENT"
  | .EXPIRED_PAYMENT => "EXPIRED_PAYMENT"
  | .INVALID_SIGNATURE => "INVALID_SIGNATURE"
  | .SETTLEMENT_FAILED => "SETTLEMENT_FAILED"

/-! ### Metadata codec (`_get_metadata_dict` and the write-back pattern) -/

/-- `_get_metadata_dict(message)` on a dict-shaped message (the engine's
messages are dicts produced by `Message.to_dict()`): the raw value Python
returns, which is `metadata.get('custom_fields', metadata)` when the
metadata entry is a dict and `{}` otherwise.  Note the returned value need
not itself be a dict. -/
def getMetadataValue : Option Value → Value
  | none => .dict []
  | some msg =>
    match msg with
    | .dict fields =>
      match lookupD fields "metadata" (.dict []) with
      | .dict md => (lookup md "custom_fields").getD (.dict md)
      | _ => .dict []
    | _ => .dict []

/-- The metadata map the engine then works on.  Python would raise on a
non-dict return of `_get_metadata_dict`; that region is excluded by the
well-formedness hypotheses of the theorems below (`metaWF`). -/
def getMetadataDict (msg : Option Value) : List (String × Value) :=
  match getMetadataValue msg with
  | .dict d => d
  | _ => []

/-- The middleware's write-back pattern:
`message['metadata']['custom_fields'] = metadata` (creating the metadata
dict if absent).  Python would raise when a present metadata entry is not a
dict; there the message is returned unchanged (region excluded by
`metaWF`). -/
def writeCustomFields (msg : Value) (m : List (String × Value)) : Value :=
  match msg with
  | .dict fields =>
    let fields' := if (lookup fields "metadata").isNone
      then setKey fields "metadata" (.dict []) else fields
    match lookup fields' "metadata" with
    | some (.dict md) =>
      .dict (setKey fields' "metadata" (.dict (setKey md "custom_fields" (.dict m))))
    | _ => msg
  | _ => msg

/-- Well-formedness of a task's message for the engine: the custom-fields
container extracted by the codec is an actual dict, and its receipts entry
(if any) is a list.  Exactly the region where the Python engine does not
raise while reading or appending. -/
def metaWF (task : Task) : Prop :=
  (∃ d, getMetadataValue task.status.message = .dict d ∧
    (lookup d "x402.payment.receipts" = none ∨
     ∃ l, lookup d "x402.payment.receipts" = some (.list l)))

/-! ### Requirement Store (`self.payment_store`) -/

/-- The per-task Requirement Store: task id → quoted requirements list. -/
def Store := List (String × List PaymentRequirements)

/-- `self.payment_store.get(task_id)`. -/
def Store.get : Store → String → Option (List PaymentRequirements)
  | [], _ => none
  | (k', v) :: t, k => if k' = k then some v else Store.get t k

/-- `self.payment_store[task_id] = reqs` (overwrite in place). -/
def Store.put : Store → String → List PaymentRequirements → Store
  | [], k, v => [(k, v)]
  | (k', v') :: t, k, v =>
    if k' = k then (k, v) :: t else (k', v') :: Store.put t k v

/-- `del self.payment_store[task_id]` / `self.payment_store.pop(task_id, None)`. -/
def Store.del : Store → String → Store
  | [], _ => []
  | (k', v') :: t, k => if k' = k then t else (k', v') :: Store.del t k

/-! ### Facilitator Port

The facilitator is an external collaborator; a call either returns a
response or throws (modelled with `Except`, the error carrying the
exception text). -/

/-- Facilitator Port: `verify`/`settle`, each may throw. -/
structure Facilitator where
  verify : PaymentPayload → PaymentRequirements → Except String VerifyResponse
  settle : PaymentPayload → PaymentRequirements → Except String SettleResponse

/-- One observed call to the Facilitator Port (instrumentation of the
engine's collaborator invocations). -/
inductive FacCall where
  | verifyCall (payload : PaymentPayload) (req : PaymentRequirements)
  | settleCall (payload : PaymentPayload) (req : PaymentRequirements)
deriving Repr

/-! ### Negotiation Engine (`x402PaymentMiddleware`) -/

/-- `_get_payment_status(task)`: read `x402.payment.status` from the status
message metadata; falsy or unparsable values give `none`. -/
def getPaymentStatus (task : Task) : Option PaymentStatus :=
  match lookup (getMetadataDict task.status.message) "x402.payment.status" with
  | none => none
  | some v =>
    if truthy v then
      match v with
      | .str s => parsePaymentStatus s
      | _ => none
    else none

/-- `PaymentPayload(**payload_dict)`: pydantic parse of the payload dict;
`none` models the caught parse exception. -/
def parsePaymentPayload : Value → Option PaymentPayload
  | .dict d =>
    match lookup d "x402Version", lookup d "scheme",
          lookup d "network", lookup d "payload" with
    | some (.nat ver), some (.str sc), some (.str nw), some pl =>
      some ⟨ver, sc, nw, pl⟩
    | _, _, _, _ => none
  | _ => none

/-- `_get_payment_payload(task)`: read and parse `x402.payment.payload`. -/
def getPaymentPayload (task : Task) : Option PaymentPayload :=
  match lookup (getMetadataDict task.status.message) "x402.payment.payload" with
  | none => none
  | some v => if truthy v then parsePaymentPayload v else none

/-- `_find_matching_requirement`: first stored requirement whose
`(scheme, network)` equals the payload's. -/
def findMatchingRequirement :
    List PaymentRequirements → PaymentPayload → Option PaymentRequirements
  | [], _ => none
  | req :: t, payload =>
    if req.scheme = payload.scheme ∧ req.network = payload.network then some req
    else findMatchingRequirement t payload

/-- `_validate_payment_expiry`: absent or non-positive timeout is valid, and
the positive-timeout branch also reports valid (creation-time tracking is a
known gap, the function ends in `return True`). -/
def validatePaymentExpiry (req : PaymentRequirements) : Bool :=
  match req.maxTimeoutSeconds with
  | none => true
  | some t => if t ≤ 0 then true else true

/-- `_record_payment_verified(task)`: set the status key to
`payment-verified` in the message's custom fields (no-op without a truthy
message). -/
def recordPaymentVerified (task : Task) : Task :=
  match task.status.message with
  | none => task
  | some msg =>
    if truthy msg then
      let cur := getMetadataDict (some msg)
      let cur := setKey cur "x402.payment.status" (.str PaymentStatus.paymentVerified.value)
      { task with status := { task.status with message := some (writeCustomFields msg cur) } }
    else task

/-- Receipts-append step shared by the success/failure recorders:
`if key not in metadata: metadata[key] = []` then `append`.  A non-list
receipts entry (where Python raises) is excluded by `metaWF`. -/
def appendReceipt (m : List (String × Value)) (r : SettleResponse) :
    List (String × Value) :=
  match lookup m "x402.payment.receipts" with
  | some (.list l) => setKey m "x402.payment.receipts" (.list (l ++ [settleDump r]))
  | some _ => m
  | none => setKey m "x402.payment.receipts" (.list [settleDump r])

/-- `_record_payment_success`: status `payment-completed`, append the
settlement receipt, drop the payload and required keys, write back. -/
def recordPaymentSuccess (task : Task) (resp : SettleResponse) : Task :=
  match task.status.message with
  | none => task
  | some msg =>
    if truthy msg then
      let m := getMetadataDict (some msg)
      let m := setKey m "x402.payment.status" (.str PaymentStatus.paymentCompleted.value)
      let m := appendReceipt m resp
      let m := popKey m "x402.payment.payload"
      let m := popKey m "x402.payment.required"
      { task with status := { task.status with message := some (writeCustomFields msg m) } }
    else task

/-- `_record_payment_failure`: status `payment-failed`, record the error
code, append the receipt, drop the payload key, write back. -/
def recordPaymentFailure (task : Task) (code : x402ErrorCode)
    (resp : SettleResponse) : Task :=
  match task.status.message with
  | none => task
  | some msg =>
    if truthy msg then
      let m := getMetadataDict (some msg)
      let m := setKey m "x402.payment.status" (.str PaymentStatus.paymentFailed.value)
      let m := setKey m "x402.payment.error" (.str code.value)
      let m := appendReceipt m resp
      let m := popKey m "x402.payment.payload"
      { task with status := { task.status with message := some (writeCustomFields msg m) } }
    else task

/-- The synthetic failure response `_fail_payment` builds: hardcoded
`network="base"`. -/
def failResponse (reason : String) : SettleResponse :=
  { success := false, network := some "base", transaction := none,
    errorReason := some reason }

/-- `_fail_payment`: replace the status with a message-less FAILED status,
record the failure (a no-op on the fresh status, whose `message` is
`none`), and pop the store entry. -/
def failPayment (store : Store) (task : Task) (code : x402ErrorCode)
    (reason : String) : Task × Store :=
  let task := { task with status := { state := TaskState.failed, message := none } }
  let task := recordPaymentFailure task code (failResponse reason)
  (task, store.del task.id)

/-- The product-name extraction of lines 316–320:
`extra.get("product", {})` when `extra` is truthy, then
`.get("name", "item")`.  `none` models the AttributeError Python raises
when the product entry is present but not a dict (`.get` on a non-dict);
that exception escapes `_handle_payment_submission` to `process_task`'s
catch-all before settle is called and before the store cleanup runs. -/
def productName? (req : PaymentRequirements) : Option String :=
  match req.extra with
  | none => some "item"
  | some e =>
    match lookup e "product" with
    | none => some "item"
    | some (.dict p) =>
      match lookup p "name" with
      | some (.str s) => some s
      | _ => some "item"
    | some _ => none

/-- The confirmation artifact attached on verification success
(lines 322–329). -/
def successArtifact (productName : String) : Value :=
  .dict [("parts", .list [.dict [("type", .str "text"),
    ("text", .str ("✅ Payment verified and order confirmed!\n\n" ++
      "You have successfully purchased: " ++ productName ++
      "\n\nThank you for your business!"))]])]

/-- The verified task before the artifact step (lines 304–313): status key
set to `payment-verified`, task state COMPLETED with the updated message
preserved. -/
def completedTask (task : Task) : Task :=
  let t := recordPaymentVerified task
  { t with status := { state := TaskState.completed, message := t.status.message } }

/-- The verified task with its confirmation artifact (lines 304–329). -/
def verifiedTask (task : Task) (productName : String) : Task :=
  { completedTask task with artifacts := some [successArtifact productName] }

/-- The settle step of `_handle_payment_submission` (lines 331–341): the
facilitator's settle result, with a thrown error converted into a synthetic
failed `SettleResponse` carrying the requirement's network and the
exception text. -/
def settleOutcome (fac : Facilitator) (payload : PaymentPayload)
    (req : PaymentRequirements) : SettleResponse :=
  match fac.settle payload req with
  | .ok r => r
  | .error e =>
    { success := false, network := some req.network, transaction := none,
      errorReason := some ("Settlement failed: " ++ e) }

/-- Terminal recording after the settle step: record success or failure on
the task, delete the store entry. -/
def settleAndRecord (fac : Facilitator) (store : Store) (task : Task)
    (payload : PaymentPayload) (req : PaymentRequirements) :
    Task × Store × List FacCall :=
  let settleResponse := settleOutcome fac payload req
  let task :=
    if settleResponse.success then recordPaymentSuccess task settleResponse
    else recordPaymentFailure task .SETTLEMENT_FAILED settleResponse
  (task, store.del task.id, [.settleCall payload req])

/-- `_handle_payment_submission`, also returning the updated Requirement
Store and the trace of Facilitator Port calls made. -/
def handlePaymentSubmission (fac : Facilitator) (store : Store) (task : Task) :
    Task × Store × List FacCall :=
  match getPaymentPayload task with
  | none =>
    let r := failPayment store task .INVALID_SIGNATURE "Missing payment data"
    (r.1, r.2, [])
  | some payload =>
    match store.get task.id with
    | none =>
      let r :=
        failPayment store task .INVALID_SIGNATURE "Missing payment requirements"
      (r.1, r.2, [])
    | some [] =>
      -- `if not requirements_list:` also fires on an empty stored list
      let r :=
        failPayment store task .INVALID_SIGNATURE "Missing payment requirements"
      (r.1, r.2, [])
    | some reqsList =>
        match findMatchingRequirement reqsList payload with
        | none =>
          let r := failPayment store task .INVALID_SIGNATURE
            "Payment does not match any accepted option"
          (r.1, r.2, [])
        | some req =>
          if ¬ validatePaymentExpiry req then
            let r := failPayment store task .EXPIRED_PAYMENT
              "Payment authorization expired"
            (r.1, r.2, [])
          else
            match fac.verify payload req with
            | .error e =>
              let r := failPayment store task .INVALID_SIGNATURE
                ("Verification failed: " ++ e)
              (r.1, r.2, [.verifyCall payload req])
            | .ok vr =>
              if ¬ vr.isValid then
                let reason :=
                  match vr.invalidReason with
                  | some r => if r = "" then "Invalid payment" else r
                  | none => "Invalid payment"
                let r := failPayment store task .INVALID_SIGNATURE reason
                (r.1, r.2, [.verifyCall payload req])
              else
                match productName? req with
                | none =>
                  -- AttributeError at line 320: the exception escapes to
                  -- process_task's catch-all, which overwrites the status
                  -- (discarding the verified-status mutations, which only
                  -- touched the status) with a bare FAILED one; settle is
                  -- never called and the store entry is left in place
                  ({ task with status := { state := TaskState.failed,
                                           message := none } },
                   store, [.verifyCall payload req])
                | some name =>
                  let r := settleAndRecord fac store (verifiedTask task name)
                    payload req
                  (r.1, r.2.1, .verifyCall payload req :: r.2.2)

/-- Outcome of the business-logic callback: a normal result, a
`x402PaymentRequiredException` (message text plus the quoted requirement
list), or any other exception. -/
inductive BizResult where
  | ok (task : Task)
  | paymentRequired (text : String) (reqs : List PaymentRequirements)
  | error (e : String)

/-- `_handle_payment_required`: store the quoted list (overwriting), set the
task to INPUT_REQUIRED with the payment-required metadata envelope. -/
def handlePaymentRequired (store : Store) (task : Task)
    (text : String) (reqs : List PaymentRequirements) : Task × Store :=
  let store := store.put task.id reqs
  let accepts : List Value := reqs.map fun req =>
    .dict [("scheme", .str req.scheme), ("network", .str req.network),
           ("maxAmountRequired", .str req.maxAmountRequired)]
  let message : Value :=
    .dict [("content", .dict [("type", .str "text"), ("text", .str text)]),
           ("role", .str "agent"),
           ("metadata", .dict [("custom_fields", .dict
             [("x402.payment.status", .str PaymentStatus.paymentRequired.value),
              ("x402.payment.required", .dict
                [("x402Version", .nat 1), ("accepts", .list accepts)])])])]
  ({ task with status := { state := TaskState.inputRequired,
                           message := some message } }, store)

/-- `process_task`: route a submitted task to the submission pipeline,
otherwise run the business logic, turning a payment-required signal into a
quote and any other exception into a bare FAILED task. -/
def processTask (fac : Facilitator) (store : Store) (task : Task)
    (biz : Task → BizResult) : Task × Store × List FacCall :=
  match getPaymentStatus task with
  | some .paymentSubmitted => handlePaymentSubmission fac store task
  | _ =>
    match biz task with
    | .ok t => (t, store, [])
    | .paymentRequired text reqs =>
      let (t, s) := handlePaymentRequired store task text reqs
      (t, s, [])
    | .error _ =>
      ({ task with status := { state := TaskState.failed, message := none } },
       store, [])

/-- The shape of the client's resubmitted task (`payment_client.py`
lines 258–281): same id, INPUT_REQUIRED, metadata with submitted status
and the given payload value. -/
def submittedMessage (payloadVal : Value) : Value :=
  .dict [("content", .dict [("type", .str "text"),
            ("text", .str "Payment authorization provided")]),
         ("role", .str "user"),
         ("metadata", .dict [("custom_fields", .dict
           [("x402.payment.status", .str PaymentStatus.paymentSubmitted.value),
            ("x402.payment.payload", payloadVal)])])]

/-- The resubmitted task itself: same id, INPUT_REQUIRED, the submission
message. -/
def mkSubmittedTask (id : String) (payloadVal : Value) : Task :=
  { id := id
    status := { state := TaskState.inputRequired
                message := some (submittedMessage payloadVal) } }

/-! ### Merchant pricing (`merchant_server._calculate_price`)

`hashlib.sha256` is the standard SHA-256 function; it is embedded below
over byte lists (FIPS 180-4), with Nat arithmetic modulo `2^32`.  The
known-answer tests further down check the embedding against published
digests. -/

/-- 32-bit right rotation (operand below `2^32`). -/
def rotr (n x : Nat) : Nat := ((x >>> n) ||| (x <<< (32 - n))) % 4294967296

/-- SHA-256 `Ch`. -/
def ch (x y z : Nat) : Nat := (x &&& y) ^^^ ((x ^^^ 4294967295) &&& z)

/-- SHA-256 `Maj`. -/
def maj (x y z : Nat) : Nat := (x &&& y) ^^^ (x &&& z) ^^^ (y &&& z)

/-- SHA-256 `Σ₀`. -/
def bsig0 (x : Nat) : Nat := rotr 2 x ^^^ rotr 13 x ^^^ rotr 22 x

/-- SHA-256 `Σ₁`. -/
def bsig1 (x : Nat) : Nat := rotr 6 x ^^^ rotr 11 x ^^^ rotr 25 x

/-- SHA-256 `σ₀`. -/
def ssig0 (x : Nat) : Nat := rotr 7 x ^^^ rotr 18 x ^^^ (x >>> 3)

/-- SHA-256 `σ₁`. -/
def ssig1 (x : Nat) : Nat := rotr 17 x ^^^ rotr 19 x ^^^ (x >>> 10)

/-- The 64 SHA-256 round constants. -/
def K256 : List Nat :=
  [1116352408, 1899447441, 3049323471, 3921009573, 961987163,
   1508970993, 2453635748, 2870763221, 3624381080, 310598401,
   607225278, 1426881987, 1925078388, 2162078206, 2614888103,
   3248222580, 3835390401, 4022224774, 264347078, 604807628,
   770255983, 1249150122, 1555081692, 1996064986, 2554220882,
   2821834349, 2952996808, 3210313671, 3336571891, 3584528711,
   113926993, 338241895, 666307205, 773529912, 1294757372,
   1396182291, 1695183700, 1986661051, 2177026350, 2456956037,
   2730485921, 2820302411, 3259730800, 3345764771, 3516065817,
   3600352804, 4094571909, 275423344, 430227734, 506948616,
   659060556, 883997877, 958139571, 1322822218, 1537002063,
   1747873779, 1955562222, 2024104815, 2227730452, 2361852424,
   2428436474, 2756734187, 3204031479, 3329325298]

/-- SHA-256 initial hash state. -/
def H256 : List Nat :=
  [1779033703, 3144134277, 1013904242, 2773480762, 1359893119,
   2600822924, 528734635, 1541459225]

/-- Big-endian byte expansion of a number into `k` bytes. -/
def bytesBE : Nat → Nat → List Nat
  | 0, _ => []
  | k + 1, n => ((n >>> (8 * k)) % 256) :: bytesBE k n

/-- SHA-256 padding: append `0x80`, zero bytes to 56 mod 64, then the
bit length as 8 big-endian bytes. -/
def padMessage (msg : List Nat) : List Nat :=
  msg ++ [0x80] ++ List.replicate ((119 - msg.length % 64) % 64) 0 ++
    bytesBE 8 (msg.length * 8)

/-- Group bytes into big-endian 32-bit words. -/
def toWords : List Nat → List Nat
  | b0 :: b1 :: b2 :: b3 :: t => (((b0 * 256 + b1) * 256 + b2) * 256 + b3) :: toWords t
  | _ => []

/-- Split a word list into 16-word blocks (fuel-driven recursion). -/
def toBlocks : Nat → List Nat → List (List Nat)
  | 0, _ => []
  | _, [] => []
  | fuel + 1, w => w.take 16 :: toBlocks fuel (w.drop 16)

/-- Extend a 16-word block to the 64-word message schedule. -/
def extendSchedule : List Nat → Nat → List Nat
  | w, 0 => w
  | w, fuel + 1 =>
    let n := w.length
    extendSchedule (w ++ [(ssig1 (w.getD (n - 2) 0) + w.getD (n - 7) 0 +
      ssig0 (w.getD (n - 15) 0) + w.getD (n - 16) 0) % 4294967296]) fuel

/-- The 64-round compression loop over the paired round constant and
schedule word lists. -/
def compressLoop : List Nat → List Nat →
    Nat × Nat × Nat × Nat × Nat × Nat × Nat × Nat →
    Nat × Nat × Nat × Nat × Nat × Nat × Nat × Nat
  | k :: ks, w :: ws, (a, b, c, d, e, f, g, h) =>
    let t1 := (h + bsig1 e + ch e f g + k + w) % 4294967296
    let t2 := (bsig0 a + maj a b c) % 4294967296
    compressLoop ks ws ((t1 + t2) % 4294967296, a, b, c, (d + t1) % 4294967296, e, f, g)
  | _, _, s => s

/-- Process one 16-word block into the running hash state. -/
def processBlock (H : List Nat) (block : List Nat) : List Nat :=
  match H with
  | [h0, h1, h2, h3, h4, h5, h6, h7] =>
    let w := extendSchedule block 48
    let (a, b, c, d, e, f, g, h) := compressLoop K256 w (h0, h1, h2, h3, h4, h5, h6, h7)
    [(h0 + a) % 4294967296, (h1 + b) % 4294967296, (h2 + c) % 4294967296,
     (h3 + d) % 4294967296, (h4 + e) % 4294967296, (h5 + f) % 4294967296,
     (h6 + g) % 4294967296, (h7 + h) % 4294967296]
  | _ => H

/-- SHA-256 digest of a byte list, as the eight-word state. -/
def sha256Words (msg : List Nat) : List Nat :=
  let w := toWords (padMessage msg)
  (toBlocks w.length w).foldl processBlock H256

/-- The digest as one natural number — `int(hexdigest, 16)` in the
merchant's code. -/
def sha256Nat (msg : List Nat) : Nat :=
  (sha256Words msg).foldl (fun acc w => acc * 4294967296 + w) 0

/-- UTF-8 bytes of an ASCII string (`.encode()`; code points below 128
encode to themselves). -/
def strBytes (s : String) : List Nat := s.data.map Char.toNat

/-- Python's `str.lower()` on ASCII text. -/
def lowerStr (s : String) : String := ⟨s.data.map Char.toLower⟩

/-- `_calculate_price(product_name)`:
`int(sha256(name.lower().encode()).hexdigest(), 16) % 99900001 + 100000`. -/
def calculate_price (productName : String) : Nat :=
  sha256Nat (strBytes (lowerStr productName)) % 99900001 + 100000

/-! ### Concrete fixtures for witnesses and counterexamples -/

/-- A quoted requirement as the reference merchant produces it. -/
def reqBaseSepolia : PaymentRequirements :=
  { scheme := "exact", network := "base-sepolia", maxAmountRequired := "5000000",
    maxTimeoutSeconds := some 1200,
    extra := some [("product", .dict [("name", .str "laptop")])] }

/-- A quoted requirement whose extension map binds "product" to a non-dict
value — the shape on which line 320 raises. -/
def reqBadProduct : PaymentRequirements :=
  { scheme := "exact", network := "base-sepolia", maxAmountRequired := "5000000",
    maxTimeoutSeconds := some 1200,
    extra := some [("product", .str "laptop")] }

/-- A payload matching `reqBaseSepolia` on `(scheme, network)`. -/
def goodPayload : PaymentPayload :=
  { x402Version := 1, scheme := "exact", network := "base-sepolia",
    payload := .dict [("signature", .str "0xsig")] }

/-- A payload on network `"base"`, not matching the quoted
`"base-sepolia"`. -/
def unmatchedPayload : PaymentPayload :=
  { x402Version := 1, scheme := "exact", network := "base",
    payload := .dict [("signature", .str "0xsig")] }

/-- A facilitator that verifies and settles successfully. -/
def okFacilitator : Facilitator :=
  { verify := fun _ _ => .ok { isValid := true, payer := some "0xPayer" }
    settle := fun _ _ => .ok { success := true, network := some "base-sepolia",
                               transaction := some "0xtx" } }

/-- A facilitator whose settle reports `success=False`. -/
def settleFailFacilitator : Facilitator :=
  { verify := fun _ _ => .ok { isValid := true, payer := some "0xPayer" }
    settle := fun _ _ => .ok { success := false,
                               errorReason := some "mock_settlement_failed" } }

/-- A facilitator whose settle throws a transport error. -/
def settleThrowFacilitator : Facilitator :=
  { verify := fun _ _ => .ok { isValid := true, payer := some "0xPayer" }
    settle := fun _ _ => .error "connection refused" }

/-- A business-logic callback that returns the task unchanged. -/
def idBiz : Task → BizResult := fun t => .ok t

/-- Key distinctness of a Store, as guaranteed by a Python dict. -/
def Store.Nodup (s : Store) : Prop := (s.map Prod.fst).Nodup

/-- Message shapes on which the write-back pattern does not raise: a dict
whose metadata entry is absent or a dict. -/
def msgWF (msg : Value) : Prop :=
  ∃ fields, msg = .dict fields ∧
    (lookup fields "metadata" = none ∨
     ∃ md, lookup fields "metadata" = some (.dict md))

/-- A submitted task whose metadata has no `x402.payment.payload` entry. -/
def statusOnlyTask : Task :=
  { id := "t4"
    status := { state := TaskState.inputRequired
                message := some (.dict [("metadata", .dict [("custom_fields",
                  .dict [("x402.payment.status",
                          .str "payment-submitted")])])]) } }

/-- A task already carrying one receipt in its metadata (a re-submission
scenario sharing the task id). -/
def taskWithReceipt : Task :=
  { id := "t5"
    status := { state := TaskState.completed
                message := some (.dict [("metadata", .dict [("custom_fields",
                  .dict [("x402.payment.receipts",
                          .list [.dict [("success", .bool true)]])])])]) } }

/-! ### Helper lemmas -/

theorem lookup_setKey_self (m : List (String × Value)) (k : String) (v : Value) :
    lookup (setKey m k v) k = some v := by
  induction m with
  | nil => simp [setKey, lookup]
  | cons h t ih =>
    obtain ⟨k', v'⟩ := h
    by_cases hk : k' = k
    · simp [setKey, hk, lookup]
    · simp [setKey, hk, lookup, ih]

theorem lookup_setKey_ne (m : List (String × Value)) {k' k : String} (v : Value)
    (h : k' ≠ k) : lookup (setKey m k' v) k = lookup m k := by
  induction m with
  | nil => simp [setKey, lookup, h]
  | cons hd t ih =>
    obtain ⟨k'', v''⟩ := hd
    by_cases hk : k'' = k'
    · subst hk
      simp [setKey, lookup, h]
    · simp [setKey, hk, lookup, ih]

theorem lookup_popKey_ne (m : List (String × Value)) {k' k : String}
    (h : k' ≠ k) : lookup (popKey m k') k = lookup m k := by
  induction m with
  | nil => simp [popKey]
  | cons hd t ih =>
    obtain ⟨k'', v''⟩ := hd
    by_cases hk : k'' = k'
    · subst hk
      simp [popKey, lookup, h]
    · simp [popKey, hk, lookup, ih]

theorem Store.get_put_self (s : Store) (k : String) (v : List PaymentRequirements) :
    (Store.put s k v).get k = some v := by
  induction s with
  | nil => simp [Store.put, Store.get]
  | cons h t ih =>
    obtain ⟨k', v'⟩ := h
    by_cases hk : k' = k
    · simp [Store.put, hk, Store.get]
    · simp [Store.put, hk, Store.get, ih]

theorem Store.del_of_get_none (s : Store) (k : String) (h : s.get k = none) :
    s.del k = s := by
  induction s with
  | nil => simp [Store.del]
  | cons hd t ih =>
    obtain ⟨k', v'⟩ := hd
    by_cases hk : k' = k
    · simp [Store.get, hk] at h
    · simp [Store.get, hk] at h
      simp [Store.del, hk, ih h]

theorem Store.get_none_of_not_mem (s : Store) (k : String)
    (h : k ∉ s.map Prod.fst) : s.get k = none := by
  induction s with
  | nil => simp [Store.get]
  | cons hd t ih =>
    obtain ⟨k', v'⟩ := hd
    rw [List.map_cons, List.mem_cons] at h
    push_neg at h
    obtain ⟨h1, h2⟩ := h
    have hne : ¬ k' = k := fun hh => h1 hh.symm
    simp [Store.get, hne, ih h2]

theorem Store.get_del_self (s : Store) (k : String) (h : s.Nodup) :
    (s.del k).get k = none := by
  induction s with
  | nil => simp [Store.del, Store.get]
  | cons hd t ih =>
    obtain ⟨k', v'⟩ := hd
    obtain ⟨h1, h2⟩ := List.nodup_cons.mp h
    by_cases hk : k' = k
    · subst hk
      simp [Store.del]
      exact Store.get_none_of_not_mem t k' h1
    · simp [Store.del, hk, Store.get, ih h2]

theorem validatePaymentExpiry_true (r : PaymentRequirements) :
    validatePaymentExpiry r = true := by
  unfold validatePaymentExpiry
  cases r.maxTimeoutSeconds with
  | none => rfl
  | some t => simp

theorem recordPaymentVerified_id (t : Task) :
    (recordPaymentVerified t).id = t.id := by
  unfold recordPaymentVerified
  split
  · rfl
  · split <;> rfl

theorem recordPaymentSuccess_id (t : Task) (r : SettleResponse) :
    (recordPaymentSuccess t r).id = t.id := by
  unfold recordPaymentSuccess
  split
  · rfl
  · split <;> rfl

theorem recordPaymentFailure_id (t : Task) (c : x402ErrorCode) (r : SettleResponse) :
    (recordPaymentFailure t c r).id = t.id := by
  unfold recordPaymentFailure
  split
  · rfl
  · split <;> rfl

theorem completedTask_id (t : Task) : (completedTask t).id = t.id := by
  unfold completedTask
  dsimp only
  rw [recordPaymentVerified_id]

theorem verifiedTask_id (t : Task) (name : String) :
    (verifiedTask t name).id = t.id := by
  unfold verifiedTask
  dsimp only
  rw [completedTask_id]

/-- The requirement selected by the matching rule is one of the stored
requirements. -/
theorem findMatchingRequirement_mem (reqs : List PaymentRequirements)
    (p : PaymentPayload) (req : PaymentRequirements)
    (h : findMatchingRequirement reqs p = some req) : req ∈ reqs := by
  induction reqs with
  | nil => simp [findMatchingRequirement] at h
  | cons r t ih =>
    simp only [findMatchingRequirement] at h
    split at h
    · injection h with h2
      subst h2
      exact List.mem_cons_self r t
    · exact List.mem_cons_of_mem _ (ih h)

/-- `_fail_payment` in closed form: the status is replaced by a
message-less FAILED status (so the failure recorder writes nothing) and
the store entry is popped. -/
theorem failPayment_eq (s : Store) (t : Task) (c : x402ErrorCode) (reason : String) :
    failPayment s t c reason =
      ({ t with status := { state := .failed, message := none } }, s.del t.id) := rfl

/-- The store component after the settle-and-record step. -/
theorem settleAndRecord_store (fac : Facilitator) (s : Store) (task : Task)
    (p : PaymentPayload) (req : PaymentRequirements) :
    (settleAndRecord fac s task p req).2.1 = s.del task.id := by
  unfold settleAndRecord
  dsimp only
  split <;> simp [recordPaymentSuccess_id, recordPaymentFailure_id]

/-- Every branch of the submission pipeline that does not abort in the
artifact step deletes the Requirement Store entry of the incoming task's
id; the abort is excluded by requiring every stored requirement for this
id to have a well-shaped product entry. -/
theorem handlePaymentSubmission_store (fac : Facilitator) (s : Store) (t : Task)
    (hprod : ∀ reqs, s.get t.id = some reqs →
      ∀ r ∈ reqs, (productName? r).isSome) :
    (handlePaymentSubmission fac s t).2.1 = s.del t.id := by
  unfold handlePaymentSubmission
  repeat' split
  all_goals try simp [failPayment_eq, settleAndRecord_store, verifiedTask_id]
  rename_i hne0 hget0 x0 req0 hfind0 hexp0 x1 vr0 hver0 hval0 x2 hnone
  have hmem := findMatchingRequirement_mem _ _ req0 hfind0
  have := hprod _ hget0 req0 hmem
  rw [hnone] at this
  exact absurd this (by simp)

/-- The payload the client submits is extracted back intact. -/
theorem getPaymentPayload_mkSubmittedTask (id : String) (p : PaymentPayload) :
    getPaymentPayload (mkSubmittedTask id (payloadDump p)) = some p := by
  cases p
  rfl

/-- The resubmitted task is routed as a payment submission. -/
theorem getPaymentStatus_mkSubmittedTask (id : String) (v : Value) :
    getPaymentStatus (mkSubmittedTask id v) = some .paymentSubmitted := rfl

/-- Read-after-write: the codec's write-back followed by a read returns the
written map. -/
theorem getMetadataValue_writeCustomFields (msg : Value)
    (m : List (String × Value)) (h : msgWF msg) :
    getMetadataValue (some (writeCustomFields msg m)) = .dict m := by
  obtain ⟨fields, rfl, hmd⟩ := h
  rcases hmd with hnone | ⟨md, hmd⟩
  · simp [writeCustomFields, hnone, getMetadataValue, lookupD,
          lookup_setKey_self, lookup, setKey]
  · simp [writeCustomFields, hmd, getMetadataValue, lookupD,
          lookup_setKey_self]

theorem getMetadataDict_write (msg : Value) (m : List (String × Value))
    (h : msgWF msg) :
    getMetadataDict (some (writeCustomFields msg m)) = m := by
  unfold getMetadataDict
  rw [getMetadataValue_writeCustomFields msg m h]

theorem setKey_ne_nil (m : List (String × Value)) (k : String) (v : Value) :
    setKey m k v ≠ [] := by
  cases m with
  | nil => simp [setKey]
  | cons h t =>
    obtain ⟨k', v'⟩ := h
    by_cases hk : k' = k <;> simp [setKey, hk]

theorem truthy_write (msg : Value) (m : List (String × Value)) (h : msgWF msg) :
    truthy (writeCustomFields msg m) = true := by
  obtain ⟨fields, rfl, hmd⟩ := h
  rcases hmd with hnone | ⟨md, hmd⟩
  · rw [writeCustomFields]
    simp only [hnone, Option.isNone_none, if_true, lookup_setKey_self]
    have := setKey_ne_nil (setKey fields "metadata" (.dict []))
      "metadata" (.dict (setKey [] "custom_fields" (.dict m)))
    cases hset : setKey (setKey fields "metadata" (.dict [])) "metadata"
        (.dict (setKey [] "custom_fields" (.dict m))) with
    | nil => exact absurd hset (this)
    | cons a l => simp [truthy]
  · rw [writeCustomFields]
    simp only [hmd, Option.isNone_some, Bool.false_eq_true, if_false]
    have := setKey_ne_nil fields "metadata"
      (.dict (setKey md "custom_fields" (.dict m)))
    cases hset : setKey fields "metadata"
        (.dict (setKey md "custom_fields" (.dict m))) with
    | nil => exact absurd hset (this)
    | cons a l => simp [truthy]

theorem msgWF_write (msg : Value) (m : List (String × Value)) (h : msgWF msg) :
    msgWF (writeCustomFields msg m) := by
  obtain ⟨fields, rfl, hmd⟩ := h
  rcases hmd with hnone | ⟨md, hmd⟩
  · rw [writeCustomFields]
    simp only [hnone, Option.isNone_none, if_true, lookup_setKey_self]
    exact ⟨_, rfl, Or.inr ⟨_, lookup_setKey_self _ _ _⟩⟩
  · rw [writeCustomFields]
    simp only [hmd, Option.isNone_some, Bool.false_eq_true, if_false]
    exact ⟨_, rfl, Or.inr ⟨_, lookup_setKey_self _ _ _⟩⟩

theorem appendReceipt_lookup (m : List (String × Value)) (resp : SettleResponse)
    (r : List Value)
    (h : lookup m "x402.payment.receipts" = some (.list r) ∨
         (lookup m "x402.payment.receipts" = none ∧ r = [])) :
    lookup (appendReceipt m resp) "x402.payment.receipts" =
      some (.list (r ++ [settleDump resp])) := by
  unfold appendReceipt
  rcases h with h | ⟨h, rfl⟩ <;> rw [h] <;> simp [lookup_setKey_self]

theorem appendReceipt_lookup_ne (m : List (String × Value))
    (resp : SettleResponse) {k : String}
    (hk : "x402.payment.receipts" ≠ k) :
    lookup (appendReceipt m resp) k = lookup m k := by
  unfold appendReceipt
  split
  · rw [lookup_setKey_ne _ _ hk]
  · rfl
  · rw [lookup_setKey_ne _ _ hk]

/-- What the failure recorder leaves on a task whose message is a truthy,
well-formed dict: negotiation state `payment-failed`, the error code, the
receipt appended to the prior receipts list; the task's state and id are
untouched. -/
theorem recordPaymentFailure_read (task : Task) (msg : Value)
    (code : x402ErrorCode) (resp : SettleResponse) (r : List Value)
    (hmsg : task.status.message = some msg) (hWF : msgWF msg)
    (htr : truthy msg = true)
    (hrec : lookup (getMetadataDict (some msg)) "x402.payment.receipts" =
              some (.list r) ∨
            (lookup (getMetadataDict (some msg)) "x402.payment.receipts" =
              none ∧ r = [])) :
    (recordPaymentFailure task code resp).status.state = task.status.state ∧
    (recordPaymentFailure task code resp).artifacts = task.artifacts ∧
    lookup (getMetadataDict (recordPaymentFailure task code resp).status.message)
      "x402.payment.status" = some (.str "payment-failed") ∧
    lookup (getMetadataDict (recordPaymentFailure task code resp).status.message)
      "x402.payment.error" = some (.str code.value) ∧
    lookup (getMetadataDict (recordPaymentFailure task code resp).status.message)
      "x402.payment.receipts" = some (.list (r ++ [settleDump resp])) := by
  unfold recordPaymentFailure
  rw [hmsg]
  dsimp only
  rw [if_pos htr]
  rw [getMetadataDict_write _ _ hWF]
  refine ⟨rfl, rfl, ?_, ?_, ?_⟩
  · rw [lookup_popKey_ne _ (by decide), appendReceipt_lookup_ne _ _ (by decide),
        lookup_setKey_ne _ _ (by decide), lookup_setKey_self]
    rfl
  · rw [lookup_popKey_ne _ (by decide), appendReceipt_lookup_ne _ _ (by decide),
        lookup_setKey_self]
  · rw [lookup_popKey_ne _ (by decide)]
    apply appendReceipt_lookup
    rcases hrec with h | ⟨h, rfl⟩
    · exact Or.inl (by rw [lookup_setKey_ne _ _ (by decide),
        lookup_setKey_ne _ _ (by decide)]; exact h)
    · exact Or.inr ⟨by rw [lookup_setKey_ne _ _ (by decide),
        lookup_setKey_ne _ _ (by decide)]; exact h, rfl⟩

/-- What the success recorder leaves on such a task: negotiation state
`payment-completed` and the receipt appended; state and id untouched. -/
theorem recordPaymentSuccess_read (task : Task) (msg : Value)
    (resp : SettleResponse) (r : List Value)
    (hmsg : task.status.message = some msg) (hWF : msgWF msg)
    (htr : truthy msg = true)
    (hrec : lookup (getMetadataDict (some msg)) "x402.payment.receipts" =
              some (.list r) ∨
            (lookup (getMetadataDict (some msg)) "x402.payment.receipts" =
              none ∧ r = [])) :
    (recordPaymentSuccess task resp).status.state = task.status.state ∧
    lookup (getMetadataDict (recordPaymentSuccess task resp).status.message)
      "x402.payment.status" = some (.str "payment-completed") ∧
    lookup (getMetadataDict (recordPaymentSuccess task resp).status.message)
      "x402.payment.receipts" = some (.list (r ++ [settleDump resp])) := by
  unfold recordPaymentSuccess
  rw [hmsg]
  dsimp only
  rw [if_pos htr]
  rw [getMetadataDict_write _ _ hWF]
  refine ⟨rfl, ?_, ?_⟩
  · rw [lookup_popKey_ne _ (by decide), lookup_popKey_ne _ (by decide),
        appendReceipt_lookup_ne _ _ (by decide), lookup_setKey_self]
    rfl
  · rw [lookup_popKey_ne _ (by decide), lookup_popKey_ne _ (by decide)]
    apply appendReceipt_lookup
    rcases hrec with h | ⟨h, rfl⟩
    · exact Or.inl (by rw [lookup_setKey_ne _ _ (by decide)]; exact h)
    · exact Or.inr ⟨by rw [lookup_setKey_ne _ _ (by decide)]; exact h, rfl⟩

theorem mkSubmittedTask_id (id : String) (v : Value) :
    (mkSubmittedTask id v).id = id := rfl

theorem settleAndRecord_trace (fac : Facilitator) (s : Store) (t : Task)
    (p : PaymentPayload) (req : PaymentRequirements) :
    (settleAndRecord fac s t p req).2.2 = [.settleCall p req] := by
  unfold settleAndRecord
  rfl

theorem settleAndRecord_fst (fac : Facilitator) (s : Store) (t : Task)
    (p : PaymentPayload) (req : PaymentRequirements) :
    (settleAndRecord fac s t p req).1 =
      if (settleOutcome fac p req).success then
        recordPaymentSuccess t (settleOutcome fac p req)
      else
        recordPaymentFailure t .SETTLEMENT_FAILED (settleOutcome fac p req) := by
  unfold settleAndRecord
  rfl

theorem recordPaymentVerified_message (task : Task) (msg : Value)
    (hmsg : task.status.message = some msg) (htr : truthy msg = true) :
    (recordPaymentVerified task).status.message =
      some (writeCustomFields msg
        (setKey (getMetadataDict (some msg)) "x402.payment.status"
          (.str "payment-verified"))) := by
  unfold recordPaymentVerified
  rw [hmsg]
  dsimp only
  rw [if_pos htr]
  rfl

/-- The matching rule selects the first stored requirement whose
`(scheme, network)` equals the payload's. -/
theorem findMatchingRequirement_eq_find (reqs : List PaymentRequirements)
    (p : PaymentPayload) :
    findMatchingRequirement reqs p =
      reqs.find? (fun r => r.scheme == p.scheme && r.network == p.network) := by
  induction reqs with
  | nil => rfl
  | cons r t ih =>
    by_cases h : r.scheme = p.scheme ∧ r.network = p.network
    · simp [findMatchingRequirement, h, List.find?_cons, h.1, h.2]
    · have hb : (r.scheme == p.scheme && r.network == p.network) = false := by
        rcases Decidable.not_and_iff_or_not.mp h with h1 | h1 <;>
          simp [h1]
      simp [findMatchingRequirement, h, List.find?_cons, hb, ih]

/-- The verified path of the submission pipeline in closed form, for a
matched requirement whose product entry is well shaped. -/
theorem handlePaymentSubmission_verified (fac : Facilitator) (store : Store)
    (task : Task) (p : PaymentPayload) (reqs : List PaymentRequirements)
    (req : PaymentRequirements) (vr : VerifyResponse) (name : String)
    (hpl : getPaymentPayload task = some p)
    (hget : store.get task.id = some reqs) (hne : reqs ≠ [])
    (hfind : findMatchingRequirement reqs p = some req)
    (hver : fac.verify p req = .ok vr) (hva : vr.isValid = true)
    (hname : productName? req = some name) :
    handlePaymentSubmission fac store task =
      ((settleAndRecord fac store (verifiedTask task name) p req).1,
       store.del task.id, [.verifyCall p req, .settleCall p req]) := by
  unfold handlePaymentSubmission
  rw [hpl]
  dsimp only
  rw [hget]
  cases reqs with
  | nil => exact absurd rfl hne
  | cons r0 rs =>
    dsimp only
    rw [hfind]
    dsimp only
    rw [if_neg (by simp [validatePaymentExpiry_true])]
    rw [hver]
    dsimp only
    rw [if_neg (by simp [hva])]
    rw [hname]
    dsimp only
    rw [settleAndRecord_store, settleAndRecord_trace, verifiedTask_id]

/-- A task flagged `payment-submitted` is routed to the submission
pipeline. -/
theorem processTask_submitted (fac : Facilitator) (store : Store) (task : Task)
    (biz : Task → BizResult)
    (hst : getPaymentStatus task = some .paymentSubmitted) :
    processTask fac store task biz = handlePaymentSubmission fac store task := by
  unfold processTask
  rw [hst]

/-- SHA-256 known-answer test (FIPS 180-4): the empty message. -/
theorem sha256_empty_vector :
    sha256Nat (strBytes "") =
      0xe3b0c44298fc1c149afbf4c8996fb92427ae41e4649b934ca495991b7852b855 := by
  decide

/-- SHA-256 known-answer test (FIPS 180-4): the message "abc". -/
theorem sha256_abc_vector :
    sha256Nat (strBytes "abc") =
      0xba7816bf8f01cfea414140de5dae2223b00361a396177a9cb410ff61f20015ad := by
  decide

/-- SHA-256 known-answer test (FIPS 180-4): the two-block 448-bit message. -/
theorem sha256_two_block_vector :
    sha256Nat (strBytes "abcdbcdecdefdefgefghfghighijhijkijkljklmklmnlmnomnopnopq") =
      0x248d6a61d20638b8e5c026930c3e6039a33ce45964ff2167f6ecedd419db06c1 := by
  decide

/-! ## Claims -/

/-- Claim C7 (counterexample): the product name "dbqdts" prices to exactly
100000000, so the claimed half-open range [100000, 100000000) is violated —
the modulus 99900001 admits the residue 99900000. -/
theorem C7_counterexample :
    calculate_price "dbqdts" = 100000000 ∧
    ¬ calculate_price "dbqdts" < 100000000 := by
  have h : calculate_price "dbqdts" = 100000000 := by decide
  exact ⟨h, by rw [h]; omega⟩

/-- Claim C7 (amended): for every product name n the quoted price equals
(sha256(lowercased n) mod 99900001) + 100000, is an integer in the closed
range [100000, 100000000] (the upper end 100000000 is attainable), and
computing the price twice for the same n yields the same integer. -/
theorem C7_price_range :
    ∀ n : String,
      calculate_price n =
        sha256Nat (strBytes (lowerStr n)) % 99900001 + 100000 ∧
      100000 ≤ calculate_price n ∧ calculate_price n ≤ 100000000 ∧
      calculate_price n = calculate_price n := by
  intro n
  refine ⟨rfl, ?_, ?_, rfl⟩
  · unfold calculate_price
    omega
  · unfold calculate_price
    have h : sha256Nat (strBytes (lowerStr n)) % 99900001 < 99900001 :=
      Nat.mod_lt _ (by norm_num)
    omega

/-- Claim C9 (counterexample): for the bare-dict message shape, a metadata
map that itself contains the key "custom_fields" does not round trip — the
codec read returns the inner value instead of the map. -/
theorem C9_counterexample :
    getMetadataValue (some (.dict [("metadata",
        .dict [("custom_fields", .str "inner")])])) ≠
      .dict [("custom_fields", .str "inner")] :=
  fun h => Value.noConfusion h

/-- Claim C9 (amended): write-then-read returns an equal map for the
structured shape (any map, any message whose metadata entry is absent or a
dict); for the bare-dict shape it returns an equal map whenever the map
does not contain the key "custom_fields"; reading a missing message or a
message without metadata yields the empty map. -/
theorem C9_roundtrip :
    (∀ (m fields : List (String × Value)), msgWF (.dict fields) →
      getMetadataValue (some (writeCustomFields (.dict fields) m)) = .dict m) ∧
    (∀ m : List (String × Value), lookup m "custom_fields" = none →
      getMetadataValue (some (.dict [("metadata", .dict m)])) = .dict m) ∧
    getMetadataValue none = .dict [] ∧
    (∀ fields : List (String × Value), lookup fields "metadata" = none →
      getMetadataValue (some (.dict fields)) = .dict []) := by
  refine ⟨?_, ?_, rfl, ?_⟩
  · intro m fields h
    exact getMetadataValue_writeCustomFields _ m h
  · intro m h
    simp [getMetadataValue, lookupD, lookup, h]
  · intro fields h
    simp [getMetadataValue, lookupD, h, lookup]

/-- Claim C9 (witness): the round-trip theorem applied at concrete inputs. -/
theorem C9_witness :
    (msgWF (.dict []) ∧
     lookup [("k", Value.str "v")] "custom_fields" = none ∧
     lookup ([] : List (String × Value)) "metadata" = none) ∧
    (getMetadataValue (some (writeCustomFields (.dict [])
        [("k", Value.str "v")])) = .dict [("k", Value.str "v")] ∧
     getMetadataValue (some (.dict [("metadata",
        .dict [("k", Value.str "v")])])) = .dict [("k", Value.str "v")] ∧
     getMetadataValue (some (.dict ([] : List (String × Value)))) = .dict []) :=
  ⟨⟨⟨[], rfl, Or.inl rfl⟩, rfl, rfl⟩,
   C9_roundtrip.1 [("k", Value.str "v")] [] ⟨[], rfl, Or.inl rfl⟩,
   C9_roundtrip.2.1 [("k", Value.str "v")] rfl,
   C9_roundtrip.2.2.2 [] rfl⟩

/-- Claim C10 (counterexample): on a pre-settle failure (unmatched network,
quote on "base-sepolia") no receipt is appended to the task at all — the
failure path replaces the status with a message-less FAILED status, so no
receipt carrying network "base" appears on the task. -/
theorem C10_counterexample :
    (handlePaymentSubmission okFacilitator [("t10", [reqBaseSepolia])]
        (mkSubmittedTask "t10" (payloadDump unmatchedPayload))).1.status.message
      = none ∧
    lookup (getMetadataDict (handlePaymentSubmission okFacilitator
        [("t10", [reqBaseSepolia])]
        (mkSubmittedTask "t10" (payloadDump unmatchedPayload))).1.status.message)
      "x402.payment.receipts" = none :=
  ⟨rfl, rfl⟩

/-- Claim C10 (amended): `_fail_payment` constructs a synthetic failure
response with hardcoded network "base" regardless of the quoted or
submitted network, but never appends it: the failed task carries no status
message, so the failure recorder writes nothing. -/
theorem C10_fail_network :
    ∀ (store : Store) (task : Task) (code : x402ErrorCode) (reason : String),
      (failResponse reason).network = some "base" ∧
      (failResponse reason).success = false ∧
      failPayment store task code reason =
        ({ task with status := { state := .failed, message := none } },
         store.del task.id) :=
  fun store task code reason => ⟨rfl, rfl, failPayment_eq store task code reason⟩

/-- Claim C2 (counterexample): an unmatched submission (payload network
"base" against quoted "base-sepolia") records no error code at all — in
particular not NO_MATCHING_REQUIREMENT — because the failure path replaces
the status with a message-less FAILED status. -/
theorem C2_counterexample :
    lookup (getMetadataDict (handlePaymentSubmission okFacilitator
        [("t2", [reqBaseSepolia])]
        (mkSubmittedTask "t2" (payloadDump unmatchedPayload))).1.status.message)
      "x402.payment.error" ≠
      some (.str x402ErrorCode.NO_MATCHING_REQUIREMENT.value) :=
  fun h => Option.noConfusion h

/-- Claim C2 (amended): when no stored requirement matches the payload's
(scheme, network), the engine fails the task — internally passing the
INVALID_SIGNATURE code, though nothing is recorded because the replaced
status carries no message — and makes no facilitator call (empty call
trace); when a match exists, the first stored requirement in list order is
selected. -/
theorem C2_no_matching_requirement (fac : Facilitator) (store : Store)
    (task : Task) (p : PaymentPayload) (reqs : List PaymentRequirements)
    (hpl : getPaymentPayload task = some p)
    (hget : store.get task.id = some reqs) (hne : reqs ≠ [])
    (hfind : findMatchingRequirement reqs p = none) :
    (handlePaymentSubmission fac store task =
       ({ task with status := { state := .failed, message := none } },
        store.del task.id, []) ∧
     (handlePaymentSubmission fac store task).1.status.message = none) ∧
    (∀ (reqs' : List PaymentRequirements) (p' : PaymentPayload),
      findMatchingRequirement reqs' p' =
        reqs'.find? (fun r => r.scheme == p'.scheme &&
                              r.network == p'.network)) := by
  have key : handlePaymentSubmission fac store task =
      ({ task with status := { state := .failed, message := none } },
       store.del task.id, []) := by
    unfold handlePaymentSubmission
    rw [hpl]
    dsimp only
    rw [hget]
    cases reqs with
    | nil => exact absurd rfl hne
    | cons r0 rs =>
      dsimp only
      rw [hfind]
      dsimp only
      rw [failPayment_eq]
  exact ⟨⟨key, by rw [key]⟩, findMatchingRequirement_eq_find⟩

/-- Claim C2 (witness): the amended theorem applied to a concrete unmatched
submission. -/
theorem C2_witness :
    (getPaymentPayload (mkSubmittedTask "t2w" (payloadDump unmatchedPayload)) =
       some unmatchedPayload ∧
     Store.get [("t2w", [reqBaseSepolia])] "t2w" = some [reqBaseSepolia] ∧
     [reqBaseSepolia] ≠ [] ∧
     findMatchingRequirement [reqBaseSepolia] unmatchedPayload = none) ∧
    handlePaymentSubmission okFacilitator [("t2w", [reqBaseSepolia])]
        (mkSubmittedTask "t2w" (payloadDump unmatchedPayload)) =
      ({ mkSubmittedTask "t2w" (payloadDump unmatchedPayload) with
          status := { state := .failed, message := none } },
       Store.del [("t2w", [reqBaseSepolia])] "t2w", []) :=
  ⟨⟨rfl, rfl, by simp, rfl⟩,
   (C2_no_matching_requirement okFacilitator [("t2w", [reqBaseSepolia])]
      (mkSubmittedTask "t2w" (payloadDump unmatchedPayload))
      unmatchedPayload [reqBaseSepolia] rfl rfl (by simp) rfl).1.1⟩

/-- Claim C3 (counterexample): a submission for a task id with no live
store entry records no error code at all — in particular not
MISSING_REQUIREMENTS — because the failure path replaces the status with a
message-less FAILED status. -/
theorem C3_counterexample :
    lookup (getMetadataDict (handlePaymentSubmission okFacilitator []
        (mkSubmittedTask "t3" (payloadDump goodPayload))).1.status.message)
      "x402.payment.error" ≠
      some (.str x402ErrorCode.MISSING_REQUIREMENTS.value) :=
  fun h => Option.noConfusion h

/-- Claim C3 (amended): a submission whose task id has no live Requirement
Store entry is rejected — the task enters FAILED with no message, hence no
recorded error code (internally INVALID_SIGNATURE is passed, not
MISSING_REQUIREMENTS) — no facilitator call is made, and the store is left
unchanged: the submission is not treated as a new quote. -/
theorem C3_missing_requirements (fac : Facilitator) (store : Store)
    (task : Task) (p : PaymentPayload)
    (hpl : getPaymentPayload task = some p)
    (hget : store.get task.id = none) :
    handlePaymentSubmission fac store task =
      ({ task with status := { state := .failed, message := none } },
       store, []) ∧
    (handlePaymentSubmission fac store task).1.status.message = none ∧
    ((handlePaymentSubmission fac store task).2.1).get task.id = none := by
  have hdel := Store.del_of_get_none store task.id hget
  have key : handlePaymentSubmission fac store task =
      ({ task with status := { state := .failed, message := none } },
       store.del task.id, []) := by
    unfold handlePaymentSubmission
    rw [hpl]
    dsimp only
    rw [hget]
    dsimp only
    rw [failPayment_eq]
  rw [hdel] at key
  refine ⟨key, by rw [key], ?_⟩
  rw [key]
  exact hget

/-- Claim C3 (witness): the amended theorem applied to a submission whose
store entry is absent. -/
theorem C3_witness :
    (getPaymentPayload (mkSubmittedTask "t3w" (payloadDump goodPayload)) =
       some goodPayload ∧
     Store.get ([] : Store) "t3w" = none) ∧
    handlePaymentSubmission okFacilitator []
        (mkSubmittedTask "t3w" (payloadDump goodPayload)) =
      ({ mkSubmittedTask "t3w" (payloadDump goodPayload) with
          status := { state := .failed, message := none } }, [], []) :=
  ⟨⟨rfl, rfl⟩,
   (C3_missing_requirements okFacilitator []
      (mkSubmittedTask "t3w" (payloadDump goodPayload)) goodPayload
      rfl rfl).1⟩

/-- Claim C4 (counterexample): a submitted task with no
`x402.payment.payload` entry records no error code at all — in particular
not MISSING_PAYLOAD — because the failure path replaces the status with a
message-less FAILED status. -/
theorem C4_counterexample :
    lookup (getMetadataDict (handlePaymentSubmission okFacilitator []
        statusOnlyTask).1.status.message) "x402.payment.error" ≠
      some (.str x402ErrorCode.MISSING_PAYLOAD.value) :=
  fun h => Option.noConfusion h

/-- Claim C4 (amended): a submitted task whose metadata has no
`x402.payment.payload` entry is failed — the task enters FAILED with no
message, hence no recorded error code (internally INVALID_SIGNATURE is
passed, not MISSING_PAYLOAD) — with no facilitator call and the store entry
popped. -/
theorem C4_missing_payload (fac : Facilitator) (store : Store) (task : Task)
    (hpl : getPaymentPayload task = none) (_hWF : metaWF task) :
    handlePaymentSubmission fac store task =
      ({ task with status := { state := .failed, message := none } },
       store.del task.id, []) ∧
    (handlePaymentSubmission fac store task).1.status.message = none := by
  have key : handlePaymentSubmission fac store task =
      ({ task with status := { state := .failed, message := none } },
       store.del task.id, []) := by
    unfold handlePaymentSubmission
    rw [hpl]
    dsimp only
    rw [failPayment_eq]
  exact ⟨key, by rw [key]⟩

/-- Claim C4 (witness): the amended theorem applied to a concrete
payload-less submitted task. -/
theorem C4_witness :
    (getPaymentPayload statusOnlyTask = none ∧ metaWF statusOnlyTask) ∧
    handlePaymentSubmission okFacilitator [] statusOnlyTask =
      ({ statusOnlyTask with
          status := { state := .failed, message := none } },
       Store.del ([] : Store) "t4", []) :=
  ⟨⟨rfl, ⟨[("x402.payment.status", .str "payment-submitted")], rfl,
      Or.inl rfl⟩⟩,
   (C4_missing_payload okFacilitator [] statusOnlyTask rfl
      ⟨[("x402.payment.status", .str "payment-submitted")], rfl,
       Or.inl rfl⟩).1⟩

/-- Claim C6 (counterexample): a stored requirement whose extension map
binds "product" to a non-dict value makes the artifact step raise after a
successful verify; the engine aborts through process_task's catch-all to a
FAILED task, the cleanup at lines 356-357 is skipped, and the Requirement
Store entry survives the terminal outcome instead of returning absent. -/
theorem C6_counterexample :
    Store.get (handlePaymentSubmission okFacilitator
        [("t6c", [reqBadProduct])]
        (mkSubmittedTask "t6c" (payloadDump goodPayload))).2.1 "t6c" =
      some [reqBadProduct] ∧
    (handlePaymentSubmission okFacilitator [("t6c", [reqBadProduct])]
        (mkSubmittedTask "t6c" (payloadDump goodPayload))).1.status.state =
      TaskState.failed ∧
    some [reqBadProduct] ≠ (none : Option (List PaymentRequirements)) :=
  ⟨rfl, rfl, fun h => Option.noConfusion h⟩

/-- Claim C6 (amended): after the quote pipeline stores a quote for task id
T, the store returns the quoted list (a fresh quote overwrites any prior
entry); after the submission pipeline reaches a terminal outcome for T the
store returns absent — unless the success-artifact step raises (a stored
requirement whose extra "product" entry is not a dict), in which case the
engine aborts to a bare FAILED task and the entry is retained.  Deletion
holds on every outcome whenever the stored requirements for T have
well-shaped product entries. -/
theorem C6_store_lifecycle :
    (∀ (store : Store) (task : Task) (text : String)
       (reqs : List PaymentRequirements),
      Store.get (handlePaymentRequired store task text reqs).2 task.id =
        some reqs) ∧
    (∀ (fac : Facilitator) (store : Store) (task : Task),
      metaWF task → store.Nodup →
      (∀ reqs, store.get task.id = some reqs →
        ∀ r ∈ reqs, (productName? r).isSome) →
      Store.get (handlePaymentSubmission fac store task).2.1 task.id =
        none) := by
  constructor
  · intro s t text reqs
    unfold handlePaymentRequired
    exact Store.get_put_self s t.id reqs
  · intro fac s t _ hnd hprod
    rw [handlePaymentSubmission_store fac s t hprod]
    exact Store.get_del_self s t.id hnd

/-- Claim C6 (witness): the lifecycle theorem applied to a concrete quote
and a concrete submission over a store with a well-shaped product entry. -/
theorem C6_witness :
    (metaWF (mkSubmittedTask "t6" (payloadDump goodPayload)) ∧
     Store.Nodup [("t6", [reqBaseSepolia])] ∧
     (∀ reqs, Store.get [("t6", [reqBaseSepolia])] "t6" = some reqs →
       ∀ r ∈ reqs, (productName? r).isSome)) ∧
    Store.get (handlePaymentRequired [] statusOnlyTask "pay"
        [reqBaseSepolia]).2 "t4" = some [reqBaseSepolia] ∧
    Store.get (handlePaymentSubmission okFacilitator
        [("t6", [reqBaseSepolia])]
        (mkSubmittedTask "t6" (payloadDump goodPayload))).2.1 "t6" = none :=
  ⟨⟨⟨[("x402.payment.status", .str "payment-submitted"),
      ("x402.payment.payload", payloadDump goodPayload)], rfl, Or.inl rfl⟩,
    by simp [Store.Nodup],
    by
      intro reqs h
      injection h with h2
      subst h2
      intro r hr
      rw [List.mem_singleton] at hr
      subst hr
      rfl⟩,
   C6_store_lifecycle.1 [] statusOnlyTask "pay" [reqBaseSepolia],
   C6_store_lifecycle.2 okFacilitator [("t6", [reqBaseSepolia])]
     (mkSubmittedTask "t6" (payloadDump goodPayload))
     ⟨[("x402.payment.status", .str "payment-submitted"),
       ("x402.payment.payload", payloadDump goodPayload)], rfl, Or.inl rfl⟩
     (by simp [Store.Nodup])
     (by
       intro reqs h
       injection h with h2
       subst h2
       intro r hr
       rw [List.mem_singleton] at hr
       subst hr
       rfl)⟩

/-- Claim C5: the settlement recorders only append: starting from a task
whose metadata holds receipts list r (length k-1), both the success and the
failure recorder leave receipts r ++ [new receipt] — read back from the
task, the sequence has length k, its first k-1 elements are exactly r, and
no existing receipt is modified. -/
theorem C5_receipts_append_only (task : Task) (msg : Value) (r : List Value)
    (code : x402ErrorCode) (resp : SettleResponse)
    (hmsg : task.status.message = some msg) (hWF : msgWF msg)
    (htr : truthy msg = true)
    (hrec : lookup (getMetadataDict (some msg)) "x402.payment.receipts" =
      some (.list r)) :
    (lookup (getMetadataDict
        (recordPaymentSuccess task resp).status.message)
        "x402.payment.receipts" = some (.list (r ++ [settleDump resp])) ∧
     lookup (getMetadataDict
        (recordPaymentFailure task code resp).status.message)
        "x402.payment.receipts" = some (.list (r ++ [settleDump resp]))) ∧
    (r ++ [settleDump resp]).length = r.length + 1 ∧
    (r ++ [settleDump resp]).take r.length = r := by
  refine ⟨⟨?_, ?_⟩, by simp, by simp⟩
  · exact (recordPaymentSuccess_read task msg resp r hmsg hWF htr
      (Or.inl hrec)).2.2
  · exact (recordPaymentFailure_read task msg code resp r hmsg hWF htr
      (Or.inl hrec)).2.2.2.2

/-- Claim C5 (witness): the append-only theorem applied to a concrete task
already carrying one receipt. -/
theorem C5_witness :
    (taskWithReceipt.status.message = some (.dict [("metadata",
        .dict [("custom_fields", .dict [("x402.payment.receipts",
          .list [.dict [("success", .bool true)]])])])]) ∧
     msgWF (.dict [("metadata", .dict [("custom_fields",
        .dict [("x402.payment.receipts",
          .list [.dict [("success", .bool true)]])])])]) ∧
     truthy (.dict [("metadata", .dict [("custom_fields",
        .dict [("x402.payment.receipts",
          .list [.dict [("success", .bool true)]])])])]) = true ∧
     lookup (getMetadataDict (some (.dict [("metadata",
        .dict [("custom_fields", .dict [("x402.payment.receipts",
          .list [.dict [("success", .bool true)]])])])])))
       "x402.payment.receipts" =
       some (.list [.dict [("success", .bool true)]])) ∧
    lookup (getMetadataDict (recordPaymentFailure taskWithReceipt
        .SETTLEMENT_FAILED (failResponse "boom")).status.message)
      "x402.payment.receipts" =
      some (.list ([.dict [("success", .bool true)]] ++
        [settleDump (failResponse "boom")])) :=
  ⟨⟨rfl, ⟨_, rfl, Or.inr ⟨_, rfl⟩⟩, rfl, rfl⟩,
   ((C5_receipts_append_only taskWithReceipt _
      [.dict [("success", .bool true)]] .SETTLEMENT_FAILED
      (failResponse "boom") rfl ⟨_, rfl, Or.inr ⟨_, rfl⟩⟩ rfl rfl).1).2⟩

/-- Claim C8: on a verified submission that reaches the settle step (the
matched requirement's product entry is well shaped, so the artifact step
does not raise) the facilitator's settle is called exactly once — the full
call trace is one verify then one settle; a thrown settle error is
converted into a synthetic failed SettleResult — network taken from the
matched requirement, reason prefixed "Settlement failed:" — rather than
propagated; and the pipeline's resulting task is produced by the same
success/failure recorder that handles any other settlement outcome, so the
converted result is appended to the receipts sequence like any other. -/
theorem C8_settle_exactly_once (fac : Facilitator) (store : Store)
    (task : Task) (p : PaymentPayload) (reqs : List PaymentRequirements)
    (req : PaymentRequirements) (vr : VerifyResponse) (name : String)
    (hpl : getPaymentPayload task = some p)
    (hget : store.get task.id = some reqs) (hne : reqs ≠ [])
    (hfind : findMatchingRequirement reqs p = some req)
    (hver : fac.verify p req = .ok vr) (hva : vr.isValid = true)
    (hname : productName? req = some name) :
    (handlePaymentSubmission fac store task).2.2 =
      [.verifyCall p req, .settleCall p req] ∧
    (∀ e, fac.settle p req = .error e →
      settleOutcome fac p req =
        { success := false, network := some req.network, transaction := none,
          errorReason := some ("Settlement failed: " ++ e) }) ∧
    (handlePaymentSubmission fac store task).1 =
      (if (settleOutcome fac p req).success then
        recordPaymentSuccess (verifiedTask task name) (settleOutcome fac p req)
      else
        recordPaymentFailure (verifiedTask task name) .SETTLEMENT_FAILED
          (settleOutcome fac p req)) := by
  have key := handlePaymentSubmission_verified fac store task p reqs req vr
    name hpl hget hne hfind hver hva hname
  refine ⟨by rw [key], ?_, ?_⟩
  · intro e he
    unfold settleOutcome
    rw [he]
  · rw [key]
    exact settleAndRecord_fst fac store (verifiedTask task name) p req

/-- Claim C8 (witness): the theorem applied to a concrete submission whose
facilitator settle throws. -/
theorem C8_witness :
    (getPaymentPayload (mkSubmittedTask "t8" (payloadDump goodPayload)) =
       some goodPayload ∧
     Store.get [("t8", [reqBaseSepolia])] "t8" = some [reqBaseSepolia] ∧
     [reqBaseSepolia] ≠ [] ∧
     findMatchingRequirement [reqBaseSepolia] goodPayload =
       some reqBaseSepolia ∧
     settleThrowFacilitator.verify goodPayload reqBaseSepolia =
       .ok { isValid := true, payer := some "0xPayer" } ∧
     VerifyResponse.isValid { isValid := true, payer := some "0xPayer" } =
       true ∧
     productName? reqBaseSepolia = some "laptop") ∧
    (handlePaymentSubmission settleThrowFacilitator
        [("t8", [reqBaseSepolia])]
        (mkSubmittedTask "t8" (payloadDump goodPayload))).2.2 =
      [.verifyCall goodPayload reqBaseSepolia,
       .settleCall goodPayload reqBaseSepolia] ∧
    settleOutcome settleThrowFacilitator goodPayload reqBaseSepolia =
      { success := false, network := some "base-sepolia", transaction := none,
        errorReason := some ("Settlement failed: " ++ "connection refused") } :=
  ⟨⟨rfl, rfl, by simp, rfl, rfl, rfl, rfl⟩,
   (C8_settle_exactly_once settleThrowFacilitator [("t8", [reqBaseSepolia])]
      (mkSubmittedTask "t8" (payloadDump goodPayload)) goodPayload
      [reqBaseSepolia] reqBaseSepolia
      { isValid := true, payer := some "0xPayer" } "laptop"
      rfl rfl (by simp) rfl rfl rfl rfl).1,
   (C8_settle_exactly_once settleThrowFacilitator [("t8", [reqBaseSepolia])]
      (mkSubmittedTask "t8" (payloadDump goodPayload)) goodPayload
      [reqBaseSepolia] reqBaseSepolia
      { isValid := true, payer := some "0xPayer" } "laptop"
      rfl rfl (by simp) rfl rfl rfl rfl).2.1 "connection refused" rfl⟩

/-- Claim C1 (counterexample): with a facilitator whose settle reports
failure after a successful verify, the task returned by process_task is in
state COMPLETED, not the claimed terminal FAILED state. -/
theorem C1_counterexample :
    (processTask settleFailFacilitator [("t1c", [reqBaseSepolia])]
        (mkSubmittedTask "t1c" (payloadDump goodPayload)) idBiz).1.status.state
      = TaskState.completed ∧
    TaskState.completed ≠ TaskState.failed :=
  ⟨rfl, by decide⟩

/-- Claim C1 (amended): when verify succeeds and the submission reaches the
settle step (well-shaped product entry) but settle reports failure
(success=false or a thrown settle error), the task returned by process_task
stays in task state COMPLETED (the state set at verification time), while
its metadata records negotiation state payment-failed, error code
SETTLEMENT_FAILED, and an appended receipt with success=false carrying the
error reason; no exception escapes — the pipeline returns this structured
task. -/
theorem C1_settle_failure (fac : Facilitator) (store : Store) (task : Task)
    (biz : Task → BizResult) (msg : Value) (p : PaymentPayload)
    (reqs : List PaymentRequirements) (req : PaymentRequirements)
    (vr : VerifyResponse) (name : String)
    (hst : getPaymentStatus task = some .paymentSubmitted)
    (hmsg : task.status.message = some msg) (hWF : msgWF msg)
    (htr : truthy msg = true)
    (hrec : lookup (getMetadataDict (some msg)) "x402.payment.receipts" =
      none)
    (hpl : getPaymentPayload task = some p)
    (hget : store.get task.id = some reqs) (hne : reqs ≠ [])
    (hfind : findMatchingRequirement reqs p = some req)
    (hver : fac.verify p req = .ok vr) (hva : vr.isValid = true)
    (hname : productName? req = some name)
    (hfail : (settleOutcome fac p req).success = false) :
    (processTask fac store task biz).1.status.state = .completed ∧
    lookup (getMetadataDict (processTask fac store task biz).1.status.message)
      "x402.payment.status" = some (.str "payment-failed") ∧
    lookup (getMetadataDict (processTask fac store task biz).1.status.message)
      "x402.payment.error" = some (.str "SETTLEMENT_FAILED") ∧
    lookup (getMetadataDict (processTask fac store task biz).1.status.message)
      "x402.payment.receipts" =
      some (.list [settleDump (settleOutcome fac p req)]) ∧
    (settleDump (settleOutcome fac p req) =
      .dict [("success", .bool false),
             ("network", ((settleOutcome fac p req).network.map
               Value.str).getD .null),
             ("transaction", (((settleOutcome fac p req).transaction).map
               Value.str).getD .null),
             ("errorReason", (((settleOutcome fac p req).errorReason).map
               Value.str).getD .null)]) := by
  have hroute := processTask_submitted fac store task biz hst
  have key := handlePaymentSubmission_verified fac store task p reqs req vr
    name hpl hget hne hfind hver hva hname
  have h1 : (processTask fac store task biz).1 =
      recordPaymentFailure (verifiedTask task name) .SETTLEMENT_FAILED
        (settleOutcome fac p req) := by
    rw [hroute, key]
    dsimp only
    rw [settleAndRecord_fst, if_neg (by simp [hfail])]
  -- facts about the verified task
  have hvm : (verifiedTask task name).status.message =
      some (writeCustomFields msg
        (setKey (getMetadataDict (some msg)) "x402.payment.status"
          (.str "payment-verified"))) := by
    unfold verifiedTask completedTask
    dsimp only
    exact recordPaymentVerified_message task msg hmsg htr
  have hWF' := msgWF_write msg
    (setKey (getMetadataDict (some msg)) "x402.payment.status"
      (.str "payment-verified")) hWF
  have htr' := truthy_write msg
    (setKey (getMetadataDict (some msg)) "x402.payment.status"
      (.str "payment-verified")) hWF
  have hrec' : lookup (getMetadataDict
      ((verifiedTask task name).status.message)) "x402.payment.receipts" =
      none := by
    rw [hvm, getMetadataDict_write _ _ hWF,
        lookup_setKey_ne _ _ (by decide)]
    exact hrec
  have hread := recordPaymentFailure_read (verifiedTask task name)
    (writeCustomFields msg
      (setKey (getMetadataDict (some msg)) "x402.payment.status"
        (.str "payment-verified")))
    .SETTLEMENT_FAILED (settleOutcome fac p req) [] hvm hWF' htr'
    (Or.inr ⟨by rw [hvm] at hrec'; exact hrec', rfl⟩)
  refine ⟨?_, ?_, ?_, ?_, ?_⟩
  · rw [h1, hread.1]
    rfl
  · rw [h1]
    exact hread.2.2.1
  · rw [h1]
    exact hread.2.2.2.1
  · rw [h1]
    exact hread.2.2.2.2
  · rw [settleDump, hfail]

/-- Claim C1 (witness): the amended theorem applied to a concrete
submission whose facilitator settle reports success=false. -/
theorem C1_witness :
    (getPaymentStatus (mkSubmittedTask "t1w" (payloadDump goodPayload)) =
       some .paymentSubmitted ∧
     getPaymentPayload (mkSubmittedTask "t1w" (payloadDump goodPayload)) =
       some goodPayload ∧
     Store.get [("t1w", [reqBaseSepolia])] "t1w" = some [reqBaseSepolia] ∧
     [reqBaseSepolia] ≠ [] ∧
     findMatchingRequirement [reqBaseSepolia] goodPayload =
       some reqBaseSepolia ∧
     settleFailFacilitator.verify goodPayload reqBaseSepolia =
       .ok { isValid := true, payer := some "0xPayer" } ∧
     productName? reqBaseSepolia = some "laptop" ∧
     (settleOutcome settleFailFacilitator goodPayload
        reqBaseSepolia).success = false) ∧
    ((processTask settleFailFacilitator [("t1w", [reqBaseSepolia])]
        (mkSubmittedTask "t1w" (payloadDump goodPayload))
        idBiz).1.status.state = .completed ∧
     lookup (getMetadataDict (processTask settleFailFacilitator
        [("t1w", [reqBaseSepolia])]
        (mkSubmittedTask "t1w" (payloadDump goodPayload))
        idBiz).1.status.message) "x402.payment.status" =
       some (.str "payment-failed") ∧
     lookup (getMetadataDict (processTask settleFailFacilitator
        [("t1w", [reqBaseSepolia])]
        (mkSubmittedTask "t1w" (payloadDump goodPayload))
        idBiz).1.status.message) "x402.payment.error" =
       some (.str "SETTLEMENT_FAILED")) :=
  ⟨⟨rfl, rfl, rfl, by simp, rfl, rfl, rfl, rfl⟩,
   (C1_settle_failure settleFailFacilitator [("t1w", [reqBaseSepolia])]
      (mkSubmittedTask "t1w" (payloadDump goodPayload)) idBiz
      (submittedMessage (payloadDump goodPayload)) goodPayload
      [reqBaseSepolia] reqBaseSepolia
      { isValid := true, payer := some "0xPayer" } "laptop"
      rfl rfl ⟨_, rfl, Or.inr ⟨_, rfl⟩⟩ rfl rfl rfl rfl (by simp) rfl
      rfl rfl rfl rfl).1,
   (C1_settle_failure settleFailFacilitator [("t1w", [reqBaseSepolia])]
      (mkSubmittedTask "t1w" (payloadDump goodPayload)) idBiz
      (submittedMessage (payloadDump goodPayload)) goodPayload
      [reqBaseSepolia] reqBaseSepolia
      { isValid := true, payer := some "0xPayer" } "laptop"
      rfl rfl ⟨_, rfl, Or.inr ⟨_, rfl⟩⟩ rfl rfl rfl rfl (by simp) rfl
      rfl rfl rfl rfl).2.1,
   (C1_settle_failure settleFailFacilitator [("t1w", [reqBaseSepolia])]
      (mkSubmittedTask "t1w" (payloadDump goodPayload)) idBiz
      (submittedMessage (payloadDump goodPayload)) goodPayload
      [reqBaseSepolia] reqBaseSepolia
      { isValid := true, payer := some "0xPayer" } "laptop"
      rfl rfl ⟨_, rfl, Or.inr ⟨_, rfl⟩⟩ rfl rfl rfl rfl (by simp) rfl
      rfl rfl rfl rfl).2.2.1⟩

end X402
